import Mathlib

/-!
Shallow embedding of `cinder/volume/drivers/nexenta/nexentaedge/iscsi_ne.py`
(class `NexentaEdgeISCSIDriver`), covering the name-map store and the LUN
lifecycle operations.  The Python dict `self.name_map` is modelled as an
association list with unique keys; REST calls are modelled by boolean
parameters saying whether each call succeeds, and a raised Python exception
is an `Option Err` in the operation result.  Every operation also records a
trace of its observable steps (lookups, allocations, issued REST calls).
-/

namespace NexentaEdge

/-- Name map: the Python dict from volume display name to LUN number,
modelled as an association list with unique keys (insertion order
preserved, as in a Python dict). -/
abbrev NameMap := List (String × Nat)

/-- Membership test `name in self.name_map` together with the read
`self.name_map[name]`. -/
def lookup? : NameMap → String → Option Nat
  | [], _ => none
  | p :: rest, k => if p.1 = k then some p.2 else lookup? rest k

/-- The list of LUN numbers stored in the map (Python dict values). -/
def values (m : NameMap) : List Nat := m.map Prod.snd

/-- Python `self.name_map[name] = v`: replace the value in place if the key
is present, append a new entry otherwise. -/
def setEntry : NameMap → String → Nat → NameMap
  | [], k, v => [(k, v)]
  | p :: rest, k, v => if p.1 = k then (k, v) :: rest else p :: setEntry rest k v

/-- Python `self.name_map.pop(name)`. -/
def eraseKey : NameMap → String → NameMap
  | [], _ => []
  | p :: rest, k => if p.1 = k then rest else p :: eraseKey rest k

/-- Errors raised by the driver code: the NexentaException variants
(exhausted LUN space, missing map entry, REST/transport failure) and the
Python IndexError that target-name parsing can raise. -/
inductive Err
  | lunSpaceExhausted
  | unknownVolume (name : String)
  | restFailure
  | indexError
  deriving DecidableEq

/-- The scan `for i in range(1, 256)` inside `_allocate_lun_number`
(lines 136-144): starting at `i` with `fuel` iterations left, return the
first number not present as a value of the map. -/
def allocScan (m : NameMap) : Nat → Nat → Option Nat
  | _, 0 => none
  | i, fuel + 1 => if i ∈ values m then allocScan m (i + 1) fuel else some i

/-- Lines 134-149: `_allocate_lun_number`.  Scans 1..255 for the first
number not used as a value; raises NexentaException when all are used. -/
def _allocate_lun_number (m : NameMap) : Except Err Nat :=
  match allocScan m 1 255 with
  | some n => .ok n
  | none => .error .lunSpaceExhausted

/-- Lines 123-132: `_verify_name_in_map` followed by the dict read in
`_get_lun_from_name`.  A pure read: the map is not mutated. -/
def _get_lun_from_name (m : NameMap) (name : String) : Except Err Nat :=
  match lookup? m name with
  | none => .error (.unknownVolume name)
  | some v => .ok v

/-- Bucket context fixed at initialization (lines 62-65). -/
structure Config where
  cluster : String
  tenant : String
  bucket : String
  deriving DecidableEq

/-- Line 63: `self.bucket_path` = `cluster/tenant/bucket`. -/
def bucket_path (c : Config) : String :=
  c.cluster ++ "/" ++ c.tenant ++ "/" ++ c.bucket

/-- Lines 64-65: `self.bucket_url`. -/
def bucket_url (c : Config) : String :=
  "clusters/" ++ c.cluster ++ "/tenants/" ++ c.tenant ++ "/buckets/" ++ c.bucket

/-- Driver state touched by the lifecycle operations: the in-memory
`self.name_map` and the copy persisted in the bucket metadata key
`X-Name-Map` (written by `_set_bucket_name_map`, lines 118-121). -/
structure DriverState where
  name_map : NameMap
  persisted : NameMap
  deriving DecidableEq

/-- Observable steps of an operation: map lookups, LUN allocation, and
issued REST calls.  An issued call appears in the trace whether it succeeds
or fails; a call that is never issued does not appear. -/
inductive Event
  | evLookup (name : String)
  | evAllocate (n : Nat)
  | evPut (path : String)
  | evPost (path : String)
  | evDelete (path : String)
  deriving DecidableEq

/-- Result of a lifecycle operation: final driver state, trace of
observable steps, and the raised error when the Python code raises. -/
structure OpResult where
  state : DriverState
  trace : List Event
  error : Option Err
  deriving DecidableEq

/-- Lines 151-170: `create_volume`.  `postOk` and `putOk` say whether the
create-LUN POST and the metadata PUT succeed.  REST bodies (size, block and
chunk size) are not observable here and are omitted; the final
`_get_provider_location` call (line 170) is modelled by its map lookup. -/
def create_volume (cfg : Config) (s : DriverState) (name : String)
    (postOk putOk : Bool) : OpResult :=
  match _allocate_lun_number s.name_map with
  | .error e => ⟨s, [], some e⟩
  | .ok lunNumber =>
    if postOk = false then
      ⟨s, [.evAllocate lunNumber, .evPost "iscsi"], some .restFailure⟩
    else
      let m := setEntry s.name_map name lunNumber
      if putOk = false then
        ⟨⟨m, s.persisted⟩,
          [.evAllocate lunNumber, .evPost "iscsi", .evPut (bucket_url cfg)],
          some .restFailure⟩
      else
        ⟨⟨m, m⟩,
          [.evAllocate lunNumber, .evPost "iscsi", .evPut (bucket_url cfg),
            .evLookup name],
          none⟩

/-- Lines 172-184: `delete_volume`.  `deleteOk` and `putOk` say whether the
iscsi DELETE and the metadata PUT succeed. -/
def delete_volume (cfg : Config) (s : DriverState) (name : String)
    (deleteOk putOk : Bool) : OpResult :=
  match _get_lun_from_name s.name_map name with
  | .error e => ⟨s, [.evLookup name], some e⟩
  | .ok lunNumber =>
    if deleteOk = false then
      ⟨s, [.evLookup name, .evDelete ("iscsi/" ++ toString lunNumber)],
        some .restFailure⟩
    else
      let m := eraseKey s.name_map name
      if putOk = false then
        ⟨⟨m, s.persisted⟩,
          [.evLookup name, .evDelete ("iscsi/" ++ toString lunNumber),
            .evPut (bucket_url cfg)],
          some .restFailure⟩
      else
        ⟨⟨m, m⟩,
          [.evLookup name, .evDelete ("iscsi/" ++ toString lunNumber),
            .evPut (bucket_url cfg)],
          none⟩

/-- Lines 186-191: `extend_volume`.  A lookup and one resize POST; the map
is never mutated and no metadata PUT is issued. -/
def extend_volume (cfg : Config) (s : DriverState) (name : String)
    (postOk : Bool) : OpResult :=
  match _get_lun_from_name s.name_map name with
  | .error e => ⟨s, [.evLookup name], some e⟩
  | .ok lunNumber =>
    ⟨s, [.evLookup name, .evPost ("iscsi/" ++ toString lunNumber ++ "/resize")],
      if postOk = false then some .restFailure else none⟩

/-- Lines 193-220: `create_volume_from_snapshot`.  `snapPostOk`,
`createPostOk` and `putOk` say whether the snapshot-restore POST, the
create-LUN POST and the metadata PUT succeed. -/
def create_volume_from_snapshot (cfg : Config) (s : DriverState)
    (volName snapVolName snapName : String)
    (snapPostOk createPostOk putOk : Bool) : OpResult :=
  match _get_lun_from_name s.name_map snapVolName with
  | .error e => ⟨s, [.evLookup snapVolName], some e⟩
  | .ok lunNumber =>
    match _allocate_lun_number s.name_map with
    | .error e => ⟨s, [.evLookup snapVolName], some e⟩
    | .ok newLun =>
      let snap_url := bucket_url cfg ++ "/snapviews/" ++ toString lunNumber ++
        ".snapview/snapshots/" ++ snapName
      if snapPostOk = false then
        ⟨s, [.evLookup snapVolName, .evAllocate newLun, .evPost snap_url],
          some .restFailure⟩
      else if createPostOk = false then
        ⟨s, [.evLookup snapVolName, .evAllocate newLun, .evPost snap_url,
            .evPost "iscsi"],
          some .restFailure⟩
      else
        let m := setEntry s.name_map volName newLun
        if putOk = false then
          ⟨⟨m, s.persisted⟩,
            [.evLookup snapVolName, .evAllocate newLun, .evPost snap_url,
              .evPost "iscsi", .evPut (bucket_url cfg)],
            some .restFailure⟩
        else
          ⟨⟨m, m⟩,
            [.evLookup snapVolName, .evAllocate newLun, .evPost snap_url,
              .evPost "iscsi", .evPut (bucket_url cfg)],
            none⟩

/-- Lines 222-231: `create_snapshot`.  A lookup and one snapshot POST; no
map interaction beyond the lookup. -/
def create_snapshot (cfg : Config) (s : DriverState)
    (volName snapName : String) (postOk : Bool) : OpResult :=
  match _get_lun_from_name s.name_map volName with
  | .error e => ⟨s, [.evLookup volName], some e⟩
  | .ok lunNumber =>
    ⟨s, [.evLookup volName,
        .evPost (bucket_url cfg ++ "/snapviews/" ++ toString lunNumber ++ ".snapview")],
      if postOk = false then some .restFailure else none⟩

/-- Lines 233-237: `delete_snapshot`.  A lookup and one snapshot DELETE; no
map interaction beyond the lookup. -/
def delete_snapshot (cfg : Config) (s : DriverState)
    (volName snapName : String) (deleteOk : Bool) : OpResult :=
  match _get_lun_from_name s.name_map volName with
  | .error e => ⟨s, [.evLookup volName], some e⟩
  | .ok lunNumber =>
    ⟨s, [.evLookup volName,
        .evDelete (bucket_url cfg ++ "/snapviews/" ++ toString lunNumber ++
          ".snapview/snapshots/" ++ snapName)],
      if deleteOk = false then some .restFailure else none⟩

/-- Lines 239-265: `create_cloned_volume`.  The source lookup happens while
building `vol_url` (lines 240-241), the new LUN number is allocated at line
242 before any REST call, and the clone body (line 246) names the new LUN.
`clonePostOk`, `createPostOk` and `putOk` say whether the clone POST, the
create-LUN POST and the metadata PUT succeed. -/
def create_cloned_volume (cfg : Config) (s : DriverState)
    (volName srcName : String)
    (clonePostOk createPostOk putOk : Bool) : OpResult :=
  match _get_lun_from_name s.name_map srcName with
  | .error e => ⟨s, [.evLookup srcName], some e⟩
  | .ok srcLun =>
    let vol_url := bucket_url cfg ++ "/objects/" ++ toString srcLun ++ "/clone"
    match _allocate_lun_number s.name_map with
    | .error e => ⟨s, [.evLookup srcName], some e⟩
    | .ok newLun =>
      if clonePostOk = false then
        ⟨s, [.evLookup srcName, .evAllocate newLun, .evPost vol_url],
          some .restFailure⟩
      else if createPostOk = false then
        ⟨s, [.evLookup srcName, .evAllocate newLun, .evPost vol_url,
            .evPost "iscsi"],
          some .restFailure⟩
      else
        let m := setEntry s.name_map volName newLun
        if putOk = false then
          ⟨⟨m, s.persisted⟩,
            [.evLookup srcName, .evAllocate newLun, .evPost vol_url,
              .evPost "iscsi", .evPut (bucket_url cfg)],
            some .restFailure⟩
        else
          ⟨⟨m, m⟩,
            [.evLookup srcName, .evAllocate newLun, .evPost vol_url,
              .evPost "iscsi", .evPut (bucket_url cfg)],
            none⟩

/-- Line 95 of the source, the expression
`rsp['value'].split('\n', 1)[0].split(' ')[2]`: first line of the status
value, third space-separated token; `none` when index 2 raises IndexError. -/
def parse_target_name (v : String) : Option String :=
  (((v.splitOn "\n").headD "").splitOn " ").get? 2

/-- Outcome of the bucket-metadata GET used by `_get_bucket_name_map`
(lines 109-116): transport failure, metadata key absent, or a parsed map. -/
inductive BucketFetch
  | failure
  | noMeta
  | meta (m : NameMap)
  deriving DecidableEq

/-- Lines 109-116: `_get_bucket_name_map`.  A failed GET raises; an absent
`X-Name-Map` key yields the empty map. -/
def _get_bucket_name_map : BucketFetch → Except Err NameMap
  | .failure => .error .restFailure
  | .noMeta => .ok []
  | .meta m => .ok m

/-- Normal return value of `do_setup`: either a fully initialized driver
(target name and loaded name map) or the caught exception object returned
as a plain value by `return exc` (line 93). -/
inductive SetupOutcome
  | ready (targetName : String) (map : NameMap)
  | returnedException
  deriving DecidableEq

/-- Lines 78-96: `do_setup`.  `statusFetch` is the result of the GET on
`sysconfig/iscsi/status` (`none` = the call raises, `some v` = the returned
value string); `bucketFetch` is the bucket-metadata GET result.
`Except.error` means the Python code raises; `Except.ok` is a normal
return.  When the status GET raises, the source catches the exception,
logs it and executes `return exc`: a normal return carrying the exception
object, with `self.target_name` and `self.name_map` left unset. -/
def do_setup (statusFetch : Option String) (bucketFetch : BucketFetch) :
    Except Err SetupOutcome :=
  match statusFetch with
  | none => .ok .returnedException
  | some v =>
    match parse_target_name v with
    | none => .error .indexError
    | some targetName =>
      match _get_bucket_name_map bucketFetch with
      | .error e => .error e
      | .ok m => .ok (.ready targetName m)

/-- Python dict well-formedness: keys are unique. -/
def WF (m : NameMap) : Prop := (m.map Prod.fst).Nodup

/-- Data-model invariant (spec section 3): each LUN number appears at most
once as a value across all entries, and every LUN number lies in [1, 255]. -/
def LunInvariant (m : NameMap) : Prop :=
  (values m).Nodup ∧ ∀ p ∈ m, 1 ≤ p.2 ∧ p.2 ≤ 255

/-- Fixed sample bucket context used by concrete witnesses. -/
def cfg0 : Config := ⟨"cl", "tn", "bk"⟩

instance (m : NameMap) : Decidable (WF m) :=
  inferInstanceAs (Decidable (m.map Prod.fst).Nodup)

instance (m : NameMap) : Decidable (LunInvariant m) :=
  inferInstanceAs (Decidable ((values m).Nodup ∧ ∀ p ∈ m, 1 ≤ p.2 ∧ p.2 ≤ 255))

end NexentaEdge

deriving instance DecidableEq for Except

namespace NexentaEdge

/-! Basic lemmas about the association-list operations. -/

theorem lookup?_eq_none_iff (m : NameMap) (k : String) :
    lookup? m k = none ↔ ∀ p ∈ m, p.1 ≠ k := by
  induction m with
  | nil => simp [lookup?]
  | cons p rest ih =>
    by_cases h : p.1 = k <;> simp [lookup?, h, ih]

theorem values_nil : values ([] : NameMap) = [] := rfl

theorem values_cons (p : String × Nat) (rest : NameMap) :
    values (p :: rest) = p.2 :: values rest := rfl

theorem mem_values_of_lookup?_eq_some {m : NameMap} {k : String} {v : Nat}
    (h : lookup? m k = some v) : v ∈ values m := by
  induction m with
  | nil => simp [lookup?] at h
  | cons p rest ih =>
    rw [lookup?] at h
    rw [values_cons]
    by_cases hp : p.1 = k
    · rw [if_pos hp] at h
      exact (Option.some.inj h) ▸ List.mem_cons_self _ _
    · rw [if_neg hp] at h
      exact List.mem_cons_of_mem _ (ih h)

theorem setEntry_of_absent {m : NameMap} {k : String} (v : Nat)
    (h : lookup? m k = none) : setEntry m k v = m ++ [(k, v)] := by
  induction m with
  | nil => simp [setEntry]
  | cons p rest ih =>
    rw [lookup?] at h
    by_cases hp : p.1 = k
    · rw [if_pos hp] at h
      exact absurd h (by simp)
    · rw [if_neg hp] at h
      simp [setEntry, hp, ih h]

theorem mem_setEntry {m : NameMap} {k : String} {v : Nat} {q : String × Nat}
    (h : q ∈ setEntry m k v) : q = (k, v) ∨ q ∈ m := by
  induction m with
  | nil => simpa [setEntry] using h
  | cons p rest ih =>
    by_cases hp : p.1 = k
    · simp [setEntry, hp] at h
      rcases h with h | h
      · exact Or.inl h
      · exact Or.inr (List.mem_cons_of_mem _ h)
    · simp [setEntry, hp] at h
      rcases h with h | h
      · exact Or.inr (by simp [h])
      · rcases ih h with h | h
        · exact Or.inl h
        · exact Or.inr (List.mem_cons_of_mem _ h)

theorem mem_values_setEntry {m : NameMap} {k : String} {v w : Nat}
    (h : w ∈ values (setEntry m k v)) : w = v ∨ w ∈ values m := by
  rcases List.mem_map.mp h with ⟨q, hq, hw⟩
  rcases mem_setEntry hq with h1 | h1
  · exact Or.inl (by rw [← hw, h1])
  · exact Or.inr (List.mem_map.mpr ⟨q, h1, hw⟩)

theorem nodup_values_setEntry {m : NameMap} {k : String} {v : Nat}
    (hv : v ∉ values m) (hnd : (values m).Nodup) :
    (values (setEntry m k v)).Nodup := by
  induction m with
  | nil => simp [setEntry, values]
  | cons p rest ih =>
    rw [values_cons, List.nodup_cons] at hnd
    rw [values_cons, List.mem_cons, not_or] at hv
    by_cases hp : p.1 = k
    · simp only [setEntry, if_pos hp]
      rw [values_cons, List.nodup_cons]
      exact ⟨hv.2, hnd.2⟩
    · simp only [setEntry, if_neg hp]
      rw [values_cons, List.nodup_cons]
      refine ⟨fun hmem => ?_, ih hv.2 hnd.2⟩
      rcases mem_values_setEntry hmem with h1 | h1
      · exact hv.1 h1.symm
      · exact hnd.1 h1

theorem lookup?_setEntry_self (m : NameMap) (k : String) (v : Nat) :
    lookup? (setEntry m k v) k = some v := by
  induction m with
  | nil => simp [setEntry, lookup?]
  | cons p rest ih =>
    by_cases hp : p.1 = k
    · simp [setEntry, hp, lookup?]
    · simp [setEntry, hp, lookup?, ih]

theorem not_mem_values_setEntry {m : NameMap} {k : String} {v w : Nat}
    (hnd : (values m).Nodup) (hk : lookup? m k = some v) (hw : w ∉ values m)
    (hvw : v ≠ w) : v ∉ values (setEntry m k w) := by
  induction m with
  | nil => simp [lookup?] at hk
  | cons p rest ih =>
    rw [values_cons, List.nodup_cons] at hnd
    rw [values_cons, List.mem_cons, not_or] at hw
    rw [lookup?] at hk
    by_cases hp : p.1 = k
    · rw [if_pos hp] at hk
      have hv : p.2 = v := Option.some.inj hk
      simp only [setEntry, if_pos hp]
      rw [values_cons, List.mem_cons, not_or]
      exact ⟨hvw, hv ▸ hnd.1⟩
    · rw [if_neg hp] at hk
      simp only [setEntry, if_neg hp]
      rw [values_cons, List.mem_cons, not_or]
      refine ⟨fun hvp => ?_, ih hnd.2 hk hw.2⟩
      exact hnd.1 (hvp ▸ mem_values_of_lookup?_eq_some hk)

theorem mem_eraseKey_subset {m : NameMap} {k : String} {q : String × Nat}
    (h : q ∈ eraseKey m k) : q ∈ m := by
  induction m with
  | nil => simp [eraseKey] at h
  | cons p rest ih =>
    by_cases hp : p.1 = k
    · simp only [eraseKey, if_pos hp] at h
      exact List.mem_cons_of_mem _ h
    · simp only [eraseKey, if_neg hp, List.mem_cons] at h
      rcases h with h | h
      · exact h ▸ List.mem_cons_self _ _
      · exact List.mem_cons_of_mem _ (ih h)

theorem values_eraseKey_sublist (m : NameMap) (k : String) :
    List.Sublist (values (eraseKey m k)) (values m) := by
  induction m with
  | nil => simp [eraseKey]
  | cons p rest ih =>
    by_cases hp : p.1 = k
    · simp only [eraseKey, if_pos hp, values_cons]
      exact List.sublist_cons_self _ _
    · simp only [eraseKey, if_neg hp, values_cons]
      exact ih.cons₂ _

theorem eraseKey_append_singleton {m : NameMap} {k : String} (v : Nat)
    (h : ∀ p ∈ m, p.1 ≠ k) : eraseKey (m ++ [(k, v)]) k = m := by
  induction m with
  | nil => simp [eraseKey]
  | cons p rest ih =>
    have hp : p.1 ≠ k := h p (List.mem_cons_self _ _)
    simp only [List.cons_append, eraseKey, if_neg hp]
    exact congrArg _ (ih fun q hq => h q (List.mem_cons_of_mem _ hq))

theorem lookup?_append_singleton_self {m : NameMap} {k : String} (v : Nat)
    (h : ∀ p ∈ m, p.1 ≠ k) : lookup? (m ++ [(k, v)]) k = some v := by
  induction m with
  | nil => simp [lookup?]
  | cons p rest ih =>
    have hp : p.1 ≠ k := h p (List.mem_cons_self _ _)
    simp only [List.cons_append, lookup?, if_neg hp]
    exact ih fun q hq => h q (List.mem_cons_of_mem _ hq)

/-! Lemmas about the allocation scan. -/

theorem allocScan_some {m : NameMap} :
    ∀ fuel i n, allocScan m i fuel = some n →
      i ≤ n ∧ n < i + fuel ∧ n ∉ values m ∧ ∀ j, i ≤ j → j < n → j ∈ values m := by
  intro fuel
  induction fuel with
  | zero => intro i n h; simp [allocScan] at h
  | succ fuel ih =>
    intro i n h
    rw [allocScan] at h
    by_cases hm : i ∈ values m
    · rw [if_pos hm] at h
      obtain ⟨h1, h2, h3, h4⟩ := ih (i + 1) n h
      refine ⟨by omega, by omega, h3, fun j hj1 hj2 => ?_⟩
      rcases Nat.eq_or_lt_of_le hj1 with hj | hj
      · exact hj ▸ hm
      · exact h4 j (by omega) hj2
    · rw [if_neg hm] at h
      have hn : i = n := Option.some.inj h
      exact ⟨hn.le, by omega, hn ▸ hm, fun j hj1 hj2 => by omega⟩

theorem allocScan_eq_none {m : NameMap} :
    ∀ fuel i, (∀ j, i ≤ j → j < i + fuel → j ∈ values m) →
      allocScan m i fuel = none := by
  intro fuel
  induction fuel with
  | zero => intro i _; rfl
  | succ fuel ih =>
    intro i h
    have hi : i ∈ values m := h i le_rfl (by omega)
    rw [allocScan, if_pos hi]
    exact ih (i + 1) fun j hj1 hj2 => h j (by omega) (by omega)

theorem allocScan_none {m : NameMap} :
    ∀ fuel i, allocScan m i fuel = none →
      ∀ j, i ≤ j → j < i + fuel → j ∈ values m := by
  intro fuel
  induction fuel with
  | zero => intro i _ j hj1 hj2; omega
  | succ fuel ih =>
    intro i h j hj1 hj2
    rw [allocScan] at h
    by_cases hm : i ∈ values m
    · rw [if_pos hm] at h
      rcases Nat.eq_or_lt_of_le hj1 with hj | hj
      · exact hj ▸ hm
      · exact ih (i + 1) h j (by omega) (by omega)
    · rw [if_neg hm] at h
      exact absurd h (by simp)

theorem allocate_ok_spec {m : NameMap} {n : Nat}
    (h : _allocate_lun_number m = .ok n) :
    1 ≤ n ∧ n ≤ 255 ∧ n ∉ values m ∧ ∀ j, 1 ≤ j → j < n → j ∈ values m := by
  rw [_allocate_lun_number] at h
  cases hs : allocScan m 1 255 with
  | none => rw [hs] at h; exact absurd h (by simp)
  | some a =>
    rw [hs] at h
    have ha : a = n := by simpa using h
    obtain ⟨h1, h2, h3, h4⟩ := allocScan_some 255 1 a hs
    exact ha ▸ ⟨h1, by omega, h3, h4⟩

theorem allocate_ok_of_length_lt {m : NameMap} (h : m.length < 255) :
    ∃ n, _allocate_lun_number m = .ok n := by
  cases hs : allocScan m 1 255 with
  | some a => exact ⟨a, by rw [_allocate_lun_number, hs]⟩
  | none =>
    exfalso
    have hall := allocScan_none 255 1 hs
    have hsub : List.range' 1 255 ⊆ values m := by
      intro x hx
      rw [List.mem_range'_1] at hx
      exact hall x hx.1 hx.2
    have hlen : (List.range' 1 255).length ≤ (values m).length :=
      (List.subperm_of_subset (List.nodup_range' _ _) hsub).length_le
    rw [List.length_range'] at hlen
    have : (values m).length = m.length := List.length_map _ _
    omega

theorem allocate_error_of_full {m : NameMap}
    (h : ∀ j, 1 ≤ j → j ≤ 255 → j ∈ values m) :
    _allocate_lun_number m = .error .lunSpaceExhausted := by
  rw [_allocate_lun_number, allocScan_eq_none 255 1 fun j hj1 hj2 => h j hj1 (by omega)]

/-- Invariant preservation for `setEntry` with a fresh in-range number. -/
theorem lunInvariant_setEntry {m : NameMap} {k : String} {n : Nat}
    (h : LunInvariant m) (h1 : 1 ≤ n) (h2 : n ≤ 255) (hf : n ∉ values m) :
    LunInvariant (setEntry m k n) := by
  refine ⟨nodup_values_setEntry hf h.1, fun q hq => ?_⟩
  rcases mem_setEntry hq with he | he
  · rw [he]
    exact ⟨h1, h2⟩
  · exact h.2 q he

/-- Invariant preservation for `eraseKey`. -/
theorem lunInvariant_eraseKey {m : NameMap} {k : String}
    (h : LunInvariant m) : LunInvariant (eraseKey m k) :=
  ⟨(values_eraseKey_sublist m k).nodup h.1,
    fun q hq => h.2 q (mem_eraseKey_subset hq)⟩

/-- C1: for a map with fewer than 255 entries, `_allocate_lun_number` returns
the smallest positive integer at most 255 that is not a value of the map; on
a map occupying all 255 numbers it fails with the LUN-space-exhausted error
and returns no number. -/
theorem allocate_lun_number_spec (m : NameMap) :
    (m.length < 255 →
      ∃ n, _allocate_lun_number m = .ok n ∧ 1 ≤ n ∧ n ≤ 255 ∧ n ∉ values m ∧
        ∀ j, 1 ≤ j → j < n → j ∈ values m) ∧
    ((∀ j, 1 ≤ j → j ≤ 255 → j ∈ values m) →
      _allocate_lun_number m = .error .lunSpaceExhausted) := by
  refine ⟨fun h => ?_, allocate_error_of_full⟩
  obtain ⟨n, hn⟩ := allocate_ok_of_length_lt h
  obtain ⟨h1, h2, h3, h4⟩ := allocate_ok_spec hn
  exact ⟨n, hn, h1, h2, h3, h4⟩

/-- Witness for C1 on the concrete map mapping one name to LUN 1. -/
theorem allocate_lun_number_spec_witness :
    ([(("a" : String), 1)] : NameMap).length < 255 ∧
    ∃ n, _allocate_lun_number [(("a" : String), 1)] = .ok n ∧ 1 ≤ n ∧ n ≤ 255 ∧
      n ∉ values [(("a" : String), 1)] ∧
      ∀ j, 1 ≤ j → j < n → j ∈ values [(("a" : String), 1)] :=
  ⟨by decide, (allocate_lun_number_spec _).1 (by decide)⟩

/-- C3: `_get_lun_from_name` fails with the unknown-volume error exactly when
the name is absent from the map, and returns the stored integer when the name
is present.  The embedding of lines 123-132 is a pure read: it takes the map
as input and performs no mutation, so the map is unchanged by construction. -/
theorem get_lun_from_name_spec (m : NameMap) (name : String) :
    (_get_lun_from_name m name = .error (.unknownVolume name) ↔
      lookup? m name = none) ∧
    ∀ v, lookup? m name = some v → _get_lun_from_name m name = .ok v := by
  refine ⟨⟨fun h => ?_, fun h => by rw [_get_lun_from_name, h]⟩,
    fun v h => by rw [_get_lun_from_name, h]⟩
  cases hl : lookup? m name with
  | none => rfl
  | some v => rw [_get_lun_from_name, hl] at h; exact absurd h (by simp)

/-- Witness for C3 on the concrete map mapping one name to LUN 2. -/
theorem get_lun_from_name_spec_witness :
    lookup? [(("a" : String), 2)] "a" = some 2 ∧
    _get_lun_from_name [(("a" : String), 2)] "a" = .ok 2 :=
  ⟨by decide, (get_lun_from_name_spec _ _).2 2 (by decide)⟩

/-- C4: when the name is present and the iscsi DELETE fails, `delete_volume`
leaves both the in-memory and the persisted map untouched (the entry is
intact) and raises the REST failure. -/
theorem delete_volume_failed_delete (cfg : Config) (m p : NameMap)
    (name : String) (v : Nat) (h : lookup? m name = some v) (putOk : Bool) :
    (delete_volume cfg ⟨m, p⟩ name false putOk).state = ⟨m, p⟩ ∧
    lookup? (delete_volume cfg ⟨m, p⟩ name false putOk).state.name_map name =
      some v ∧
    (delete_volume cfg ⟨m, p⟩ name false putOk).error = some .restFailure := by
  have hd : delete_volume cfg ⟨m, p⟩ name false putOk =
      ⟨⟨m, p⟩, [.evLookup name, .evDelete ("iscsi/" ++ toString v)],
        some .restFailure⟩ := by
    simp [delete_volume, _get_lun_from_name, h]
  rw [hd]
  exact ⟨rfl, h, rfl⟩

/-- Witness for C4 on the concrete map mapping one name to LUN 3. -/
theorem delete_volume_failed_delete_witness :
    lookup? [(("a" : String), 3)] "a" = some 3 ∧
    ((delete_volume cfg0 ⟨[(("a" : String), 3)], []⟩ "a" false true).state =
        ⟨[(("a" : String), 3)], []⟩ ∧
      lookup? (delete_volume cfg0 ⟨[(("a" : String), 3)], []⟩ "a" false
        true).state.name_map "a" = some 3 ∧
      (delete_volume cfg0 ⟨[(("a" : String), 3)], []⟩ "a" false true).error =
        some .restFailure) :=
  ⟨by decide, delete_volume_failed_delete cfg0 _ _ "a" 3 (by decide) true⟩

/-- C7, code bug: when the GET on sysconfig/iscsi/status raises a transport
error, `do_setup` catches the exception and executes `return exc` (line 93),
a normal return carrying the exception object; no error is raised to the
caller, contradicting the spec statement that all errors are surfaced. -/
theorem do_setup_swallows_transport_failure (bf : BucketFetch) :
    do_setup none bf = .ok .returnedException := rfl

/-- C9: `extend_volume`, `create_snapshot` and `delete_snapshot` never mutate
the driver state (in-memory or persisted map), and never issue a metadata
PUT, whether the REST call they make succeeds or fails. -/
theorem readonly_ops_no_map_mutation (cfg : Config) (s : DriverState)
    (name snapName : String) (v : Nat)
    (h : lookup? s.name_map name = some v) :
    (∀ b, (extend_volume cfg s name b).state = s ∧
      ∀ u, Event.evPut u ∉ (extend_volume cfg s name b).trace) ∧
    (∀ b, (create_snapshot cfg s name snapName b).state = s ∧
      ∀ u, Event.evPut u ∉ (create_snapshot cfg s name snapName b).trace) ∧
    (∀ b, (delete_snapshot cfg s name snapName b).state = s ∧
      ∀ u, Event.evPut u ∉ (delete_snapshot cfg s name snapName b).trace) := by
  refine ⟨fun b => ⟨?_, fun u => ?_⟩, fun b => ⟨?_, fun u => ?_⟩,
    fun b => ⟨?_, fun u => ?_⟩⟩ <;>
    simp [extend_volume, create_snapshot, delete_snapshot,
      _get_lun_from_name, h]

/-- Witness for C9 on a concrete one-entry state. -/
theorem readonly_ops_no_map_mutation_witness :
    lookup? ([(("a" : String), 2)] : NameMap) "a" = some 2 ∧
    (extend_volume cfg0 ⟨[(("a" : String), 2)], []⟩ "a" true).state =
      ⟨[(("a" : String), 2)], []⟩ :=
  ⟨by decide,
    ((readonly_ops_no_map_mutation cfg0 ⟨[(("a" : String), 2)], []⟩ "a" "s" 2
      (by decide)).1 true).1⟩

/-- C2 counterexample: starting from the empty map, when the create-LUN POST
succeeds but the metadata PUT fails, `create_volume` raises — yet the
in-memory name map has already gained the new key (line 163 runs before the
persist of line 164), so the Name-Map Store is not unchanged. -/
theorem create_volume_mutates_on_persist_failure :
    (create_volume cfg0 ⟨[], []⟩ "v" true false).error = some .restFailure ∧
    (create_volume cfg0 ⟨[], []⟩ "v" true false).state.name_map ≠ [] := by
  decide

/-- C2 amended: on allocation exhaustion or failure of the create-LUN POST,
`create_volume` raises and leaves both the in-memory and the persisted map
unchanged; if instead the metadata PUT fails, the persisted map is unchanged
and the operation raises, but the in-memory map retains the new entry. -/
theorem create_volume_failure_semantics (cfg : Config) (m p : NameMap)
    (name : String) :
    (∀ e, _allocate_lun_number m = .error e →
      ∀ b1 b2, create_volume cfg ⟨m, p⟩ name b1 b2 = ⟨⟨m, p⟩, [], some e⟩) ∧
    (∀ n, _allocate_lun_number m = .ok n →
      (∀ b2, (create_volume cfg ⟨m, p⟩ name false b2).state = ⟨m, p⟩ ∧
        (create_volume cfg ⟨m, p⟩ name false b2).error = some .restFailure) ∧
      ((create_volume cfg ⟨m, p⟩ name true false).state.name_map =
          setEntry m name n ∧
        (create_volume cfg ⟨m, p⟩ name true false).state.persisted = p ∧
        (create_volume cfg ⟨m, p⟩ name true false).error =
          some .restFailure)) := by
  constructor
  · intro e he b1 b2
    simp [create_volume, he]
  · intro n hn
    refine ⟨fun b2 => ⟨?_, ?_⟩, ?_, ?_, ?_⟩ <;> simp [create_volume, hn]

/-- Witness for C2 (amended) on the empty map with a failing create POST. -/
theorem create_volume_failure_semantics_witness :
    _allocate_lun_number ([] : NameMap) = .ok 1 ∧
    ((create_volume cfg0 ⟨[], []⟩ "v" false true).state = ⟨[], []⟩ ∧
      (create_volume cfg0 ⟨[], []⟩ "v" false true).error =
        some .restFailure) :=
  ⟨by decide,
    ((create_volume_failure_semantics cfg0 [] [] "v").2 1 (by decide)).1 true⟩

/-- C5: every map-mutating operation (`create_volume`, `delete_volume`,
`create_volume_from_snapshot`, `create_cloned_volume`) preserves the
invariant that each LUN number appears at most once as a value and all LUN
numbers lie in [1, 255] — in every success or failure mode. -/
theorem mutating_ops_preserve_lun_invariant (cfg : Config) (m p : NameMap)
    (h : LunInvariant m) :
    (∀ name b1 b2,
      LunInvariant (create_volume cfg ⟨m, p⟩ name b1 b2).state.name_map) ∧
    (∀ name b1 b2,
      LunInvariant (delete_volume cfg ⟨m, p⟩ name b1 b2).state.name_map) ∧
    (∀ vn sv sn b1 b2 b3, LunInvariant
      (create_volume_from_snapshot cfg ⟨m, p⟩ vn sv sn b1 b2 b3).state.name_map) ∧
    (∀ vn src b1 b2 b3, LunInvariant
      (create_cloned_volume cfg ⟨m, p⟩ vn src b1 b2 b3).state.name_map) := by
  have hset : ∀ (k : String) (n : Nat), _allocate_lun_number m = .ok n →
      LunInvariant (setEntry m k n) := by
    intro k n hn
    obtain ⟨h1, h2, h3, _⟩ := allocate_ok_spec hn
    exact lunInvariant_setEntry h h1 h2 h3
  refine ⟨?_, ?_, ?_, ?_⟩
  · intro name b1 b2
    cases ha : _allocate_lun_number m with
    | error e => simpa [create_volume, ha] using h
    | ok n =>
      cases b1 <;> cases b2 <;> simp [create_volume, ha] <;>
        first | exact h | exact hset name n ha
  · intro name b1 b2
    cases hl : lookup? m name with
    | none => simpa [delete_volume, _get_lun_from_name, hl] using h
    | some v =>
      cases b1 <;> cases b2 <;> simp [delete_volume, _get_lun_from_name, hl] <;>
        first | exact h | exact lunInvariant_eraseKey h
  · intro vn sv sn b1 b2 b3
    cases hl : lookup? m sv with
    | none => simpa [create_volume_from_snapshot, _get_lun_from_name, hl] using h
    | some v =>
      cases ha : _allocate_lun_number m with
      | error e =>
        simpa [create_volume_from_snapshot, _get_lun_from_name, hl, ha] using h
      | ok n =>
        cases b1 <;> cases b2 <;> cases b3 <;>
          simp [create_volume_from_snapshot, _get_lun_from_name, hl, ha] <;>
          first | exact h | exact hset vn n ha
  · intro vn src b1 b2 b3
    cases hl : lookup? m src with
    | none => simpa [create_cloned_volume, _get_lun_from_name, hl] using h
    | some v =>
      cases ha : _allocate_lun_number m with
      | error e =>
        simpa [create_cloned_volume, _get_lun_from_name, hl, ha] using h
      | ok n =>
        cases b1 <;> cases b2 <;> cases b3 <;>
          simp [create_cloned_volume, _get_lun_from_name, hl, ha] <;>
          first | exact h | exact hset vn n ha

/-- Witness for C5 on a concrete one-entry map. -/
theorem mutating_ops_preserve_lun_invariant_witness :
    LunInvariant ([(("a" : String), 1)] : NameMap) ∧
    LunInvariant
      (create_volume cfg0 ⟨[(("a" : String), 1)], []⟩ "b" true true).state.name_map :=
  ⟨by decide,
    (mutating_ops_preserve_lun_invariant cfg0 _ [] (by decide)).1 "b" true true⟩

/-- C6: for a name not yet in the map, a fully successful `create_volume`
followed by a fully successful `delete_volume` of the same name restores the
in-memory name map exactly to its pre-create value. -/
theorem create_then_delete_roundtrip (cfg : Config) (m p : NameMap)
    (name : String) (habs : lookup? m name = none)
    (hsucc : (create_volume cfg ⟨m, p⟩ name true true).error = none) :
    (delete_volume cfg (create_volume cfg ⟨m, p⟩ name true true).state name
      true true).error = none ∧
    (delete_volume cfg (create_volume cfg ⟨m, p⟩ name true true).state name
      true true).state.name_map = m := by
  cases ha : _allocate_lun_number m with
  | error e => simp [create_volume, ha] at hsucc
  | ok n =>
    have hkeys : ∀ q ∈ m, q.1 ≠ name := (lookup?_eq_none_iff m name).mp habs
    have hset : setEntry m name n = m ++ [(name, n)] := setEntry_of_absent n habs
    have hstate : (create_volume cfg ⟨m, p⟩ name true true).state =
        ⟨m ++ [(name, n)], m ++ [(name, n)]⟩ := by
      simp [create_volume, ha, hset]
    rw [hstate]
    have hlook : lookup? (m ++ [(name, n)]) name = some n :=
      lookup?_append_singleton_self n hkeys
    have herase : eraseKey (m ++ [(name, n)]) name = m :=
      eraseKey_append_singleton n hkeys
    constructor
    · simp [delete_volume, _get_lun_from_name, hlook]
    · simp [delete_volume, _get_lun_from_name, hlook, herase]

/-- Witness for C6 creating and deleting a fresh name on a one-entry map. -/
theorem create_then_delete_roundtrip_witness :
    lookup? ([(("a" : String), 1)] : NameMap) "b" = none ∧
    (create_volume cfg0 ⟨[(("a" : String), 1)], []⟩ "b" true true).error =
      none ∧
    (delete_volume cfg0
      (create_volume cfg0 ⟨[(("a" : String), 1)], []⟩ "b" true true).state "b"
      true true).state.name_map = [(("a" : String), 1)] :=
  ⟨by decide, by decide,
    (create_then_delete_roundtrip cfg0 _ _ "b" (by decide) (by decide)).2⟩

/-- C8 counterexample: at a concrete one-volume state, the all-success trace
of `create_cloned_volume` is not of the claimed shape with the clone POST
preceding the LUN allocation — the code allocates the new LUN number (line
242) before issuing the clone POST (line 250), since the clone body names
the new LUN. -/
theorem create_cloned_volume_trace_not_clone_before_allocate :
    ¬ ∃ n, (create_cloned_volume cfg0
        ⟨[(("src" : String), 1)], [(("src" : String), 1)]⟩
        "new" "src" true true true).trace =
      [.evLookup "src", .evPost (bucket_url cfg0 ++ "/objects/1/clone"),
        .evAllocate n, .evPost "iscsi", .evPut (bucket_url cfg0)] := by
  rintro ⟨n, hn⟩
  have ht : (create_cloned_volume cfg0
      ⟨[(("src" : String), 1)], [(("src" : String), 1)]⟩
      "new" "src" true true true).trace =
      [.evLookup "src", .evAllocate 2,
        .evPost (bucket_url cfg0 ++ "/objects/1/clone"),
        .evPost "iscsi", .evPut (bucket_url cfg0)] := by decide
  rw [ht] at hn
  simp at hn

/-- C8 amended: `create_cloned_volume` performs, in order: look up the source
LUN number, allocate the new LUN number, issue the clone POST against the
source object, issue the create-LUN POST, and only after full success record
the new mapping in the in-memory map and persist it. -/
theorem create_cloned_volume_step_order (cfg : Config) (s : DriverState)
    (volName srcName : String) (srcLun n : Nat)
    (hl : lookup? s.name_map srcName = some srcLun)
    (ha : _allocate_lun_number s.name_map = .ok n) :
    (create_cloned_volume cfg s volName srcName true true true).trace =
      [.evLookup srcName, .evAllocate n,
        .evPost (bucket_url cfg ++ "/objects/" ++ toString srcLun ++ "/clone"),
        .evPost "iscsi", .evPut (bucket_url cfg)] ∧
    (create_cloned_volume cfg s volName srcName true true true).state.name_map =
      setEntry s.name_map volName n ∧
    (create_cloned_volume cfg s volName srcName true true true).state.persisted =
      setEntry s.name_map volName n ∧
    (create_cloned_volume cfg s volName srcName true true true).error = none := by
  refine ⟨?_, ?_, ?_, ?_⟩ <;>
    simp [create_cloned_volume, _get_lun_from_name, hl, ha]

/-- Witness for C8 (amended) on a concrete one-volume state. -/
theorem create_cloned_volume_step_order_witness :
    lookup? ([(("src" : String), 1)] : NameMap) "src" = some 1 ∧
    _allocate_lun_number ([(("src" : String), 1)] : NameMap) = .ok 2 ∧
    (create_cloned_volume cfg0 ⟨[(("src" : String), 1)], [(("src" : String), 1)]⟩
      "new" "src" true true true).trace =
      [.evLookup "src", .evAllocate 2,
        .evPost (bucket_url cfg0 ++ "/objects/" ++ toString 1 ++ "/clone"),
        .evPost "iscsi", .evPut (bucket_url cfg0)] :=
  ⟨by decide, by decide,
    (create_cloned_volume_step_order cfg0
      ⟨[(("src" : String), 1)], [(("src" : String), 1)]⟩ "new" "src" 1 2
      (by decide) (by decide)).1⟩

/-- C10: `create_volume` does not require the name to be absent: when the
name is already mapped to `v` (values pairwise distinct) and the operation
fully succeeds, a fresh LUN number `n` distinct from `v` is allocated, the
entry is silently overwritten to `n`, and `v` no longer appears as a value
of the map (so it is free for future allocation). -/
theorem create_volume_overwrites_existing (cfg : Config) (m p : NameMap)
    (name : String) (v : Nat)
    (hnd : (values m).Nodup) (hv : lookup? m name = some v)
    (hsucc : (create_volume cfg ⟨m, p⟩ name true true).error = none) :
    ∃ n, _allocate_lun_number m = .ok n ∧ n ≠ v ∧
      lookup? (create_volume cfg ⟨m, p⟩ name true true).state.name_map name =
        some n ∧
      v ∉ values (create_volume cfg ⟨m, p⟩ name true true).state.name_map := by
  cases ha : _allocate_lun_number m with
  | error e => simp [create_volume, ha] at hsucc
  | ok n =>
    obtain ⟨h1, h2, h3, _⟩ := allocate_ok_spec ha
    have hne : n ≠ v := fun he => h3 (he ▸ mem_values_of_lookup?_eq_some hv)
    have hstate : (create_volume cfg ⟨m, p⟩ name true true).state.name_map =
        setEntry m name n := by
      simp [create_volume, ha]
    refine ⟨n, rfl, hne, ?_, ?_⟩
    · rw [hstate]
      exact lookup?_setEntry_self m name n
    · rw [hstate]
      exact not_mem_values_setEntry hnd hv h3 fun hvn => hne hvn.symm

/-- Witness for C10: creating over an existing name on a one-entry map. -/
theorem create_volume_overwrites_existing_witness :
    (values ([(("a" : String), 3)] : NameMap)).Nodup ∧
    lookup? ([(("a" : String), 3)] : NameMap) "a" = some 3 ∧
    (create_volume cfg0 ⟨[(("a" : String), 3)], []⟩ "a" true true).error =
      none ∧
    ∃ n, _allocate_lun_number ([(("a" : String), 3)] : NameMap) = .ok n ∧
      n ≠ 3 ∧
      lookup? (create_volume cfg0 ⟨[(("a" : String), 3)], []⟩ "a" true
        true).state.name_map "a" = some n ∧
      3 ∉ values (create_volume cfg0 ⟨[(("a" : String), 3)], []⟩ "a" true
        true).state.name_map :=
  ⟨by decide, by decide, by decide,
    create_volume_overwrites_existing cfg0 _ _ "a" 3 (by decide) (by decide)
      (by decide)⟩

